import Mathlib

/-!
Verification of the core logic of the finance-tracker bot (`src/bot.py`).

Dates are modelled by their proleptic-Gregorian ordinal (the number
`datetime.date.toordinal()` returns: `0001-01-01` is ordinal `1`), as an
integer.  Comparison of Python `date` objects agrees with comparison of
their ordinals, and `date ± timedelta(days=k)` is ordinal `± k`.
Amounts are modelled as rationals; the result of Python's builtin
`float(...)` applied to a cell string is abstracted as a parameter
`pyFloat : String → Option ℚ` (`none` = the builtin raises `ValueError`),
since `float` is a language builtin, not code of this repository.
-/

namespace FinanceBot

/-- ASCII digit test, matching `\d` of the `strptime` format regexes on the
ASCII strings that occur in the ledger. -/
def pyDigit (c : Char) : Bool := 48 ≤ c.toNat && c.toNat ≤ 57

/-- Numeric value of a digit string (most significant first). -/
def natOfDigits (cs : List Char) : ℕ := cs.foldl (fun a c => 10 * a + (c.toNat - 48)) 0

/-- Split a character list at every occurrence of `sep` (like
`str.split(sep)` in Python: `n` separators give `n + 1` groups). -/
def splitOnChar (sep : Char) : List Char → List (List Char)
  | [] => [[]]
  | c :: rest =>
    let r := splitOnChar sep rest
    if c = sep then [] :: r
    else
      match r with
      | [] => [[c]]
      | g :: gs => (c :: g) :: gs

/-- Gregorian leap-year rule used by `datetime`. -/
def isLeap (y : ℕ) : Bool := y % 4 == 0 && (y % 100 != 0 || y % 400 == 0)

/-- Length of month `m` of year `y` (`datetime` calendar). -/
def daysInMonth (y m : ℕ) : ℕ :=
  if m = 2 then (if isLeap y then 29 else 28)
  else if m = 4 ∨ m = 6 ∨ m = 9 ∨ m = 11 then 30
  else 31

/-- Days in year `y` that precede month `m`. -/
def daysBeforeMonth (y m : ℕ) : ℕ :=
  ((List.range (m - 1)).map (fun i => daysInMonth y (i + 1))).sum

/-- `datetime.date(y, m, d).toordinal()`: day count since 0001-01-00. -/
def dateOrdinal (y m d : ℕ) : ℤ :=
  ((365 * (y - 1) + (y - 1) / 4 - (y - 1) / 100 + (y - 1) / 400
      + daysBeforeMonth y m + d : ℕ) : ℤ)

/-- Construction `datetime.date(y, m, d)`: validates the ranges exactly as
`datetime` does (`MINYEAR = 1`, `MAXYEAR = 9999`, day checked against the
month length) and returns the ordinal, `none` = `ValueError`. -/
def mkDate (y m d : ℕ) : Option ℤ :=
  if 1 ≤ y ∧ y ≤ 9999 ∧ 1 ≤ m ∧ m ≤ 12 ∧ 1 ≤ d ∧ d ≤ daysInMonth y m then
    some (dateOrdinal y m d)
  else none

/-- The `%Y` field of `strptime`: exactly four digits. -/
def yearField (cs : List Char) : Option ℕ :=
  if cs.all pyDigit ∧ cs.length = 4 then some (natOfDigits cs) else none

/-- The `%m` field of `strptime`: one or two digits, value 1–12
(regex `1[0-2]|0[1-9]|[1-9]`). -/
def monthField (cs : List Char) : Option ℕ :=
  if cs.all pyDigit ∧ (cs.length = 1 ∨ cs.length = 2) ∧
      1 ≤ natOfDigits cs ∧ natOfDigits cs ≤ 12 then
    some (natOfDigits cs)
  else none

/-- The `%d` field of `strptime`: one or two digits, value 1–31
(regex `3[01]|[12]\d|0[1-9]|[1-9]`). -/
def dayField (cs : List Char) : Option ℕ :=
  if cs.all pyDigit ∧ (cs.length = 1 ∨ cs.length = 2) ∧
      1 ≤ natOfDigits cs ∧ natOfDigits cs ≤ 31 then
    some (natOfDigits cs)
  else none

/-- `datetime.datetime.strptime(s, "%Y-%m-%d").date()` (`none` = raises).
A successful match must consume the whole string, so the three fields are
exactly the three groups between the `-` separators. -/
def parse_iso (cs : List Char) : Option ℤ :=
  match splitOnChar '-' cs with
  | [ys, ms, ds] => do
    let y ← yearField ys
    let m ← monthField ms
    let d ← dayField ds
    mkDate y m d
  | _ => none

/-- `datetime.datetime.strptime(s, "%d/%m/%Y").date()` (`none` = raises). -/
def parse_dmy (cs : List Char) : Option ℤ :=
  match splitOnChar '/' cs with
  | [ds, ms, ys] => do
    let d ← dayField ds
    let m ← monthField ms
    let y ← yearField ys
    mkDate y m d
  | _ => none

/-- `datetime.datetime.strptime(s, "%m/%d/%Y").date()` (`none` = raises). -/
def parse_mdy (cs : List Char) : Option ℤ :=
  match splitOnChar '/' cs with
  | [ms, ds, ys] => do
    let m ← monthField ms
    let d ← dayField ds
    let y ← yearField ys
    mkDate y m d
  | _ => none

/-- `safe_parse_date` (bot.py ll. 56–63): try the three formats in order
`"%Y-%m-%d"`, `"%d/%m/%Y"`, `"%m/%d/%Y"`; return the first success;
`none` models the single `ValueError("Unrecognized date format: ...")`
raised when every format fails. -/
def safe_parse_date (date_str : String) : Option ℤ :=
  match parse_iso date_str.data with
  | some d => some d
  | none =>
    match parse_dmy date_str.data with
    | some d => some d
    | none => parse_mdy date_str.data

/-- `date.weekday()` on an ordinal: Monday = 0 … Sunday = 6
(ordinal 1 = 0001-01-01 was a Monday). -/
def pyWeekday (d : ℤ) : ℤ := (d + 6) % 7

/-- `get_week_range` (bot.py ll. 50–54): Monday–Sunday span of the week of
the given date.  `start = date - timedelta(days=date.weekday())`,
`end = start + timedelta(days=6)`. -/
def get_week_range (date : ℤ) : ℤ × ℤ :=
  let start := date - pyWeekday date
  (start, start + 6)

/-- `datetime.date.max.toordinal()`: the ordinal of 9999-12-31, the largest
value a `date` can hold (`MAXYEAR = 9999`; `date.min` is ordinal 1). -/
def date_max_ordinal : ℤ := dateOrdinal 9999 12 31

/-- `date + timedelta(days=k)` (subtraction is the same with `k` negative):
the shifted ordinal, or `none` for the `OverflowError("result out of
range")` that `date.__add__` raises when the result leaves
`[date.min, date.max]`. -/
def date_add_days (d k : ℤ) : Option ℤ :=
  if 1 ≤ d + k ∧ d + k ≤ date_max_ordinal then some (d + k) else none

/-- `get_week_range` with the bounded arithmetic of `datetime.date` kept
explicit: `start = date - timedelta(days=date.weekday())`, then
`end = start + timedelta(days=6)`, each step able to raise OverflowError
(`none`).  It agrees with the unbounded `get_week_range` wherever no step
overflows; the second step does overflow for the last days of year 9999,
whose Sunday would lie past `date.max`. -/
def get_week_range_checked (date : ℤ) : Option (ℤ × ℤ) :=
  match date_add_days date (-pyWeekday date) with
  | none => none
  | some start =>
    match date_add_days start 6 with
    | none => none
    | some last => some (start, last)

/-- One record returned by `get_all_records()`: the two cells
`calculate_summary` reads.  Both are the raw strings stored in the sheet. -/
structure Row where
  Date : String
  Amount : String

/-- Net contribution of one loop iteration of `calculate_summary`
(bot.py ll. 70–76 / 81–87) to the running total.  The whole body sits in a
`try`: if `safe_parse_date` raises the row is skipped; if the date is out of
the span the `+=` is never reached; if `float(row['Amount'])` raises after
the span check the `+=` is likewise never reached.  In every skipped case
the contribution is 0 and the loop continues. -/
def rowContrib (pyFloat : String → Option ℚ) (week_start week_end : ℤ) (row : Row) : ℚ :=
  match safe_parse_date row.Date with
  | none => 0
  | some row_date =>
    if week_start ≤ row_date ∧ row_date ≤ week_end then
      match pyFloat row.Amount with
      | none => 0
      | some a => a
    else 0

/-- The accumulation loop of `calculate_summary` over one row-set,
starting from `total = 0`. -/
def sumRows (pyFloat : String → Option ℚ) (week_start week_end : ℤ)
    (rows : List Row) : ℚ :=
  rows.foldl (fun total row => total + rowContrib pyFloat week_start week_end row) 0

/-- `calculate_summary` (bot.py ll. 65–90): returns
`(total_earnings, total_expenses, balance)` with
`balance = total_earnings - total_expenses`. -/
def calculate_summary (pyFloat : String → Option ℚ) (week_start week_end : ℤ)
    (earnings_data expenses_data : List Row) : ℚ × ℚ × ℚ :=
  let total_earnings := sumRows pyFloat week_start week_end earnings_data
  let total_expenses := sumRows pyFloat week_start week_end expenses_data
  (total_earnings, total_expenses, total_earnings - total_expenses)

/-- Reply sent by the `/spend` handler: either the success confirmation or
the usage-error message of the `except` branch. -/
inductive SpendReply where
  | logged (amount : ℚ) (category notes : String)
  | usage
deriving DecidableEq

/-- A row appended to the Expenses sheet by
`append_row([date, day, category, amount, notes])`. -/
structure ExpenseEntry where
  date : String
  day : String
  category : String
  amount : ℚ
  notes : String
deriving DecidableEq

/-- `spend` (bot.py ll. 105–119).  The `try` body evaluates, in order,
`float(context.args[0])` (IndexError on empty args, ValueError on a
non-numeric amount), `context.args[1]` (IndexError when only one argument),
then joins the remaining args as notes and appends the row.  Any exception
jumps to the `except` branch, which replies with the usage message and
appends nothing — so the store returned there is the store passed in. -/
def spend (pyFloat : String → Option ℚ) (date day : String) (args : List String)
    (expenses_store : List ExpenseEntry) : SpendReply × List ExpenseEntry :=
  match args with
  | [] => (.usage, expenses_store)
  | arg0 :: rest =>
    match pyFloat arg0 with
    | none => (.usage, expenses_store)
    | some amount =>
      match rest with
      | [] => (.usage, expenses_store)
      | category :: rest2 =>
        let notes := String.intercalate " " rest2
        (.logged amount category notes,
          expenses_store ++ [⟨date, day, category, amount, notes⟩])

/-- The message pushed by the scheduled job: recipient chat id, the week
span aggregated over, and the three figures formatted into the text. -/
structure Push where
  chat_id : String
  week_start : ℤ
  week_end : ℤ
  earnings : ℚ
  expenses : ℚ
  balance : ℚ

/-- `send_weekly_summary` (bot.py ll. 156–173): `last_week_end = today -
timedelta(days=1)`, span `= get_week_range(last_week_end)`, totals from
`calculate_summary`, message sent to the configured `CHAT_ID`.  The cron
trigger registered in `main` (bot.py l. 190) fires it only on Mondays. -/
def send_weekly_summary (CHAT_ID : String) (pyFloat : String → Option ℚ)
    (today : ℤ) (earnings_data expenses_data : List Row) : Push :=
  let last_week_end := today - 1
  let wr := get_week_range last_week_end
  let s := calculate_summary pyFloat wr.1 wr.2 earnings_data expenses_data
  ⟨CHAT_ID, wr.1, wr.2, s.1, s.2.1, s.2.2⟩

/-- The four environment variables read at startup (bot.py ll. 24–27);
`none` models `os.getenv` returning `None` for an absent variable. -/
structure Env where
  TELEGRAM_TOKEN : Option String
  SHEET_ID : Option String
  GOOGLE_CREDENTIALS : Option String
  CHAT_ID : Option String

/-- Python truthiness of an `os.getenv` result: `None` and `""` are falsy. -/
def pyTruthy : Option String → Bool
  | none => false
  | some s => !(s == "")

/-- The startup guard (bot.py ll. 29–30): `ValueError` is raised, before any
command is served, iff `not TELEGRAM_TOKEN or not SHEET_ID or not
GOOGLE_CREDENTIALS`.  `CHAT_ID` does not appear in the condition. -/
def startup_raises (e : Env) : Bool :=
  !pyTruthy e.TELEGRAM_TOKEN || !pyTruthy e.SHEET_ID || !pyTruthy e.GOOGLE_CREDENTIALS

/-- A concrete amount-cell interpretation used for closed-form checks:
parses the few numeric strings occurring in the examples, rejects the rest,
consistent with Python's `float` on those strings. -/
def exampleFloat : String → Option ℚ :=
  fun s =>
    if s = "100" then some 100
    else if s = "200" then some 200
    else if s = "50" then some 50
    else if s = "42" then some 42
    else if s = "500" then some 500
    else none

/-- The Monday and Sunday ordinals of the example week 2024-06-03 … 2024-06-09. -/
def wk_start : ℤ := dateOrdinal 2024 6 3

/-- Sunday of the example week. -/
def wk_end : ℤ := dateOrdinal 2024 6 9

/-- A startup environment with the three checked variables set and the
scheduled-push recipient absent. -/
def env_missing_chat : Env :=
  ⟨some "token123", some "sheet456", some "credsjson", none⟩

theorem foldl_add_shift (C : Row → ℚ) (a : ℚ) (rows : List Row) :
    rows.foldl (fun t r => t + C r) a = a + (rows.map C).sum := by
  induction rows generalizing a with
  | nil => simp
  | cons r rs ih => simp [ih]; ring

theorem sumRows_eq_sum_map (pyFloat : String → Option ℚ) (ws we : ℤ)
    (rows : List Row) :
    sumRows pyFloat ws we rows = (rows.map (rowContrib pyFloat ws we)).sum := by
  simpa using foldl_add_shift (rowContrib pyFloat ws we) 0 rows

/-- C1: over any week span, a row whose parsed date lies inside the span
(inclusive at both ends) contributes exactly its amount to the running
total, and a row whose parsed date lies outside the span contributes
nothing, wherever the row sits in the row-set. -/
theorem c1_span_filtering (pyFloat : String → Option ℚ) (ws we : ℤ)
    (pre post : List Row) (r : Row) (d : ℤ)
    (hd : safe_parse_date r.Date = some d) :
    ((ws ≤ d ∧ d ≤ we) → ∀ a, pyFloat r.Amount = some a →
        sumRows pyFloat ws we (pre ++ r :: post)
          = sumRows pyFloat ws we (pre ++ post) + a) ∧
    (¬(ws ≤ d ∧ d ≤ we) →
        sumRows pyFloat ws we (pre ++ r :: post)
          = sumRows pyFloat ws we (pre ++ post)) := by
  constructor
  · rintro hin a ha
    simp [sumRows_eq_sum_map, rowContrib, hd, ha, hin]
    ring
  · intro hout
    simp [sumRows_eq_sum_map, rowContrib, hd, hout]

theorem c1_span_filtering_witness :
    sumRows exampleFloat wk_start wk_end [⟨"2024-06-05", "200"⟩]
      = sumRows exampleFloat wk_start wk_end [] + 200 :=
  (c1_span_filtering exampleFloat wk_start wk_end [] [] ⟨"2024-06-05", "200"⟩
    (dateOrdinal 2024 6 5) (by decide)).1 ⟨by decide, by decide⟩ 200 (by decide)

/-- C2: a row whose date fails to parse, or whose amount is not a valid
number, is skipped: removing it from either row-set leaves the whole
summary unchanged, and the aggregation is a total function (it never
aborts). -/
theorem c2_malformed_row_skipped (pyFloat : String → Option ℚ) (ws we : ℤ)
    (r : Row)
    (hbad : safe_parse_date r.Date = none ∨ pyFloat r.Amount = none)
    (pre post other : List Row) :
    calculate_summary pyFloat ws we (pre ++ r :: post) other
      = calculate_summary pyFloat ws we (pre ++ post) other ∧
    calculate_summary pyFloat ws we other (pre ++ r :: post)
      = calculate_summary pyFloat ws we other (pre ++ post) := by
  have hzero : rowContrib pyFloat ws we r = 0 := by
    rcases hbad with h | h
    · simp [rowContrib, h]
    · unfold rowContrib
      cases hp : safe_parse_date r.Date with
      | none => rfl
      | some d0 => simp [h]
  have hsum : ∀ rows1 rows2 : List Row,
      sumRows pyFloat ws we (rows1 ++ r :: rows2)
        = sumRows pyFloat ws we (rows1 ++ rows2) := by
    intro rows1 rows2
    simp [sumRows_eq_sum_map, hzero]
  exact ⟨by simp [calculate_summary, hsum], by simp [calculate_summary, hsum]⟩

theorem c2_malformed_row_skipped_witness :
    calculate_summary exampleFloat wk_start wk_end
        [⟨"2024-06-03", "100"⟩, ⟨"2024-13-45", "50"⟩] [⟨"2024-06-04", "50"⟩]
      = calculate_summary exampleFloat wk_start wk_end
          [⟨"2024-06-03", "100"⟩] [⟨"2024-06-04", "50"⟩] ∧
    calculate_summary exampleFloat wk_start wk_end [⟨"2024-06-04", "50"⟩]
        [⟨"2024-06-03", "100"⟩, ⟨"2024-13-45", "50"⟩]
      = calculate_summary exampleFloat wk_start wk_end [⟨"2024-06-04", "50"⟩]
          [⟨"2024-06-03", "100"⟩] :=
  c2_malformed_row_skipped exampleFloat wk_start wk_end ⟨"2024-13-45", "50"⟩
    (Or.inl (by decide)) [⟨"2024-06-03", "100"⟩] [] [⟨"2024-06-04", "50"⟩]

/-- C3 counterexample: 9999-12-31 is a valid calendar date (its
construction succeeds), yet the week-range computation is not defined
there: `start + timedelta(days=6)` lands past `date.max` and raises
OverflowError, so the function is not total over the valid dates. -/
theorem c3_counterexample_overflow :
    mkDate 9999 12 31 = some (dateOrdinal 9999 12 31) ∧
    get_week_range_checked (dateOrdinal 9999 12 31) = none := by decide

/-- C3 (amended): for every valid date except the final partial week of
year 9999 (9999-12-27 … 9999-12-31, where the end-of-week addition
overflows `date.max` and raises OverflowError), the week range is defined,
starts on a Monday (weekday 0), ends six days later, and contains the
given date; the function is pure. -/
theorem c3_week_range_monday_amended (D : ℤ)
    (hvalid : 1 ≤ D) (hfits : D ≤ dateOrdinal 9999 12 26) :
    get_week_range_checked D = some (get_week_range D) ∧
    pyWeekday (get_week_range D).1 = 0 ∧
    (get_week_range D).2 = (get_week_range D).1 + 6 ∧
    (get_week_range D).1 ≤ D ∧ D ≤ (get_week_range D).2 := by
  have hmax : date_max_ordinal = (3652059 : ℤ) := by decide
  have h26 : dateOrdinal 9999 12 26 = (3652054 : ℤ) := by decide
  rw [h26] at hfits
  have h1 : 1 ≤ D + -pyWeekday D ∧ D + -pyWeekday D ≤ date_max_ordinal := by
    rw [hmax]; unfold pyWeekday; omega
  have h2 : 1 ≤ D - pyWeekday D + 6 ∧ D - pyWeekday D + 6 ≤ date_max_ordinal := by
    rw [hmax]; unfold pyWeekday; omega
  have e1 : date_add_days D (-pyWeekday D) = some (D - pyWeekday D) := by
    unfold date_add_days
    rw [if_pos h1, sub_eq_add_neg]
  have e2 : date_add_days (D - pyWeekday D) 6 = some (D - pyWeekday D + 6) := by
    unfold date_add_days; exact if_pos h2
  refine ⟨?_, ?_, rfl, ?_, ?_⟩
  · simp [get_week_range_checked, e1, e2, get_week_range]
  · simp only [get_week_range, pyWeekday]
    omega
  · simp only [get_week_range, pyWeekday]
    omega
  · simp only [get_week_range, pyWeekday]
    omega

theorem c3_week_range_monday_amended_witness :
    get_week_range_checked (dateOrdinal 2024 6 5)
      = some (get_week_range (dateOrdinal 2024 6 5)) ∧
    pyWeekday (get_week_range (dateOrdinal 2024 6 5)).1 = 0 ∧
    (get_week_range (dateOrdinal 2024 6 5)).2
      = (get_week_range (dateOrdinal 2024 6 5)).1 + 6 ∧
    (get_week_range (dateOrdinal 2024 6 5)).1 ≤ dateOrdinal 2024 6 5 ∧
    dateOrdinal 2024 6 5 ≤ (get_week_range (dateOrdinal 2024 6 5)).2 :=
  c3_week_range_monday_amended (dateOrdinal 2024 6 5) (by decide) (by decide)

/-- C4: the date parser tries ISO, then day-first slash, then month-first
slash, returning the first successful parse, so "03/04/2024" resolves
day-first to 2024-04-03; when no format matches it fails with the one
`ValueError` (modelled by `none`), e.g. on "2024-13-45". -/
theorem c4_format_order (s : String) :
    (∀ d, parse_iso s.data = some d → safe_parse_date s = some d) ∧
    (parse_iso s.data = none →
      ∀ d, parse_dmy s.data = some d → safe_parse_date s = some d) ∧
    (parse_iso s.data = none → parse_dmy s.data = none →
      safe_parse_date s = parse_mdy s.data) ∧
    safe_parse_date "03/04/2024" = some (dateOrdinal 2024 4 3) ∧
    safe_parse_date "2024-13-45" = none := by
  refine ⟨?_, ?_, ?_, by decide, by decide⟩
  · intro d h; simp [safe_parse_date, h]
  · intro h1 d h2; simp [safe_parse_date, h1, h2]
  · intro h1 h2; simp [safe_parse_date, h1, h2]

theorem c4_format_order_witness :
    safe_parse_date "2024-06-03" = some (dateOrdinal 2024 6 3) ∧
    safe_parse_date "03/04/2024" = some (dateOrdinal 2024 4 3) :=
  ⟨(c4_format_order "2024-06-03").1 (dateOrdinal 2024 6 3) (by decide),
   (c4_format_order "03/04/2024").2.1 (by decide) (dateOrdinal 2024 4 3) (by decide)⟩

/-- C5: the balance returned by the aggregator equals total earnings minus
total expenses, exactly, for every span and every pair of row-sets. -/
theorem c5_balance_exact (pyFloat : String → Option ℚ) (ws we : ℤ)
    (earnings_data expenses_data : List Row) :
    (calculate_summary pyFloat ws we earnings_data expenses_data).2.2
      = (calculate_summary pyFloat ws we earnings_data expenses_data).1
        - (calculate_summary pyFloat ws we earnings_data expenses_data).2.1 := rfl

/-- C6: on a trigger date `T` (a Monday, per the cron registration), the
scheduled job aggregates over the just-completed week: its span ends at
`T - 1` and starts six days earlier, and the push goes to the configured
recipient `CHAT_ID` with exactly the aggregator's figures for that span. -/
theorem c6_scheduled_week_span (CHAT_ID : String) (pyFloat : String → Option ℚ)
    (T : ℤ) (earnings_data expenses_data : List Row)
    (hmon : pyWeekday T = 0) :
    (send_weekly_summary CHAT_ID pyFloat T earnings_data expenses_data).week_end
      = T - 1 ∧
    (send_weekly_summary CHAT_ID pyFloat T earnings_data expenses_data).week_start
      = (send_weekly_summary CHAT_ID pyFloat T earnings_data expenses_data).week_end
        - 6 ∧
    (send_weekly_summary CHAT_ID pyFloat T earnings_data expenses_data).chat_id
      = CHAT_ID ∧
    ((send_weekly_summary CHAT_ID pyFloat T earnings_data expenses_data).earnings,
     (send_weekly_summary CHAT_ID pyFloat T earnings_data expenses_data).expenses,
     (send_weekly_summary CHAT_ID pyFloat T earnings_data expenses_data).balance)
      = calculate_summary pyFloat
          (send_weekly_summary CHAT_ID pyFloat T earnings_data expenses_data).week_start
          (send_weekly_summary CHAT_ID pyFloat T earnings_data expenses_data).week_end
          earnings_data expenses_data := by
  simp only [pyWeekday] at hmon
  refine ⟨?_, ?_, rfl, rfl⟩ <;>
    · simp only [send_weekly_summary, get_week_range, pyWeekday]
      omega

theorem c6_scheduled_week_span_witness :
    (send_weekly_summary "314159" exampleFloat 8 [] []).week_end = 7 ∧
    (send_weekly_summary "314159" exampleFloat 8 [] []).week_start = 1 := by
  have h := c6_scheduled_week_span "314159" exampleFloat 8 [] [] (by decide)
  refine ⟨h.1, ?_⟩
  rw [h.2.1, h.1]
  decide

/-- C7: the `/spend` handler, given malformed input (no arguments, a single
argument, or a non-numeric amount), replies with the usage message and
leaves the expense store exactly as it was. -/
theorem c7_spend_malformed (pyFloat : String → Option ℚ) (date day : String)
    (args : List String) (expenses_store : List ExpenseEntry)
    (hbad : args.length ≤ 1 ∨
      ∃ a0 rest, args = a0 :: rest ∧ pyFloat a0 = none) :
    spend pyFloat date day args expenses_store = (SpendReply.usage, expenses_store) := by
  match args with
  | [] => rfl
  | [a0] => cases h : pyFloat a0 <;> simp [spend, h]
  | a0 :: a1 :: rest =>
    rcases hbad with hlen | ⟨b0, brest, heq, hnone⟩
    · simp at hlen
    · cases heq
      simp [spend, hnone]

theorem c7_spend_malformed_witness :
    spend exampleFloat "2024-06-05" "Wednesday" ["42"] []
      = (SpendReply.usage, []) :=
  c7_spend_malformed exampleFloat "2024-06-05" "Wednesday" ["42"] []
    (Or.inl (by decide))

/-- C8 counterexample: with the bot token, sheet id and credentials all
present but the scheduled-push recipient absent, the startup guard does not
raise, refuting the claim that startup fails fast whenever any one of the
four configuration values is absent. -/
theorem c8_counterexample_chat_id_unchecked :
    env_missing_chat.CHAT_ID = none ∧ startup_raises env_missing_chat = false := by
  exact ⟨rfl, by decide⟩

/-- C8 (amended): startup fails fast when the bot access token, the store
identifier, or the store access credentials is absent; absence of the
recipient identity for scheduled pushes does not prevent startup. -/
theorem c8_startup_failfast_amended (e : Env)
    (habsent : e.TELEGRAM_TOKEN = none ∨ e.SHEET_ID = none ∨
      e.GOOGLE_CREDENTIALS = none) :
    startup_raises e = true := by
  rcases habsent with h | h | h <;> simp [startup_raises, pyTruthy, h]

theorem c8_startup_failfast_amended_witness :
    startup_raises ⟨none, some "sheet456", some "credsjson", some "777"⟩ = true :=
  c8_startup_failfast_amended ⟨none, some "sheet456", some "credsjson", some "777"⟩
    (Or.inl rfl)

/-- C9: the week range is constant on its own span: every date between the
computed Monday and Sunday yields the same (start, end) pair. -/
theorem c9_week_range_constant (D Dp : ℤ)
    (h1 : (get_week_range D).1 ≤ Dp) (h2 : Dp ≤ (get_week_range D).2) :
    get_week_range Dp = get_week_range D := by
  simp only [get_week_range, pyWeekday, Prod.mk.injEq] at h1 h2 ⊢
  constructor <;> omega

theorem c9_week_range_constant_witness : get_week_range 8 = get_week_range 10 :=
  c9_week_range_constant 10 8 (by decide) (by decide)

/-- C10: the two totals do not interfere: the earnings total depends only on
the span and the earnings row-set, the expenses total only on the span and
the expenses row-set. -/
theorem c10_totals_noninterference (pyFloat : String → Option ℚ) (ws we : ℤ) :
    (∀ earnings_data expenses_data expenses_alt : List Row,
        (calculate_summary pyFloat ws we earnings_data expenses_data).1
          = (calculate_summary pyFloat ws we earnings_data expenses_alt).1) ∧
    (∀ earnings_data earnings_alt expenses_data : List Row,
        (calculate_summary pyFloat ws we earnings_data expenses_data).2.1
          = (calculate_summary pyFloat ws we earnings_alt expenses_data).2.1) :=
  ⟨fun _ _ _ => rfl, fun _ _ _ => rfl⟩

end FinanceBot
